import Mathlib

/-!
Verification of `nailgun/statistics/utils.py` (fuel-web): the resource
schema registry `collected_components_attrs`, the nested-dictionary
key-path walk `_get_value_from_nested_dict`, the nested-attribute walk
`_get_nested_attr`, and the extraction orchestrator
`get_info_from_os_resource_manager`.

Python dictionaries are modelled as association lists keyed by strings,
Python values reachable inside raw-instance dictionaries as `PyVal`, and
the client-provider object graph as `PyObj` (carrying Python truthiness).
Exceptions are modelled with `Except`.
-/

namespace FuelStats

/-- A Python value stored inside a raw-instance dictionary:
`None`, an integer, a string, a boolean, or a nested dictionary. -/
inductive PyVal : Type where
  | none : PyVal
  | int : Int → PyVal
  | str : String → PyVal
  | bool : Bool → PyVal
  | dict : List (String × PyVal) → PyVal

/-- A raw-instance dictionary (the result of `inst.to_dict()` or
`inst.__dict__`): an association list from string keys to values. -/
abbrev ObjDict := List (String × PyVal)

/-- `d.get(k)`: Python's `dict.get` with default `None`. -/
def dictGet (d : ObjDict) (k : String) : PyVal :=
  match d.find? (fun p => p.1 == k) with
  | some p => p.2
  | Option.none => PyVal.none

/-- Exceptions raised by the modelled code. -/
inductive PyErr : Type where
  /-- `KeyError`: unknown resource kind in `collected_components_attrs`. -/
  | keyError : String → PyErr
  /-- `IndexError`: `key_path[0]` on an empty key path. -/
  | indexError : PyErr
  /-- The explicit `Exception("Resource manager for {0} could not be found ...")`. -/
  | managerUnavailable : String → PyErr
  /-- A failure propagated out of the resource manager's `list()` call. -/
  | upstream : PyErr
  /-- `AttributeError`: calling `.list()` on an object that has no such method. -/
  | attributeError : PyErr
deriving Repr, DecidableEq

/-- `_get_value_from_nested_dict(obj_dict, key_path)`:

    value = obj_dict.get(key_path[0])
    if isinstance(value, dict):
        return _get_value_from_nested_dict(value, key_path[1:])
    return value

`key_path[0]` raises `IndexError` on an empty path; a value that is a
`dict` causes descent with the rest of the path; any other value (also
`None` from a missing key) is returned as is. -/
def _get_value_from_nested_dict : ObjDict → List String → Except PyErr PyVal
  | _, [] => Except.error PyErr.indexError
  | d, k :: rest =>
    match dictGet d k with
    | PyVal.dict d' => _get_value_from_nested_dict d' rest
    | v => Except.ok v

/-- An object in the client-provider graph: `None`, a primitive, an
object with named attributes, or a resource manager whose `list()`
either returns raw-instance dictionaries or fails (`Option.none`). -/
inductive PyObj : Type where
  | none : PyObj
  | int : Int → PyObj
  | str : String → PyObj
  | bool : Bool → PyObj
  | listv : List PyObj → PyObj
  | obj : List (String × PyObj) → PyObj
  | manager : Option (List ObjDict) → PyObj

/-- Python truthiness of a `PyObj`: `None`, `0`, `""`, `False` and the
empty list are falsy; ordinary objects and managers are truthy. -/
def truthy : PyObj → Bool
  | PyObj.none => false
  | PyObj.int n => n != 0
  | PyObj.str s => s ≠ ""
  | PyObj.bool b => b
  | PyObj.listv l => !l.isEmpty
  | PyObj.obj _ => true
  | PyObj.manager _ => true

/-- `getattr(o, name, None)`: attribute lookup with default `None`.
Only `obj` nodes carry named attributes. -/
def getattrDefNone : PyObj → String → PyObj
  | PyObj.obj attrs, name =>
    match attrs.find? (fun p => p.1 == name) with
    | some p => p.2
    | Option.none => PyObj.none
  | _, _ => PyObj.none

/-- `_get_nested_attr(obj, attr_path)`:

    if not all([obj, attr_path]):
        return None
    attr_name = attr_path[0]
    attr_value = getattr(obj, attr_name, None)
    if len(attr_path) == 1:
        return attr_value
    return _get_nested_attr(attr_value, attr_path[1:])

`all([obj, attr_path])` is Python truthiness of `obj` together with
non-emptiness of `attr_path`. -/
def _get_nested_attr : PyObj → List String → PyObj
  | _, [] => PyObj.none
  | o, a :: rest =>
    if truthy o = false then PyObj.none
    else
      let v := getattrDefNone o a
      match rest with
      | [] => v
      | _ :: _ => _get_nested_attr v rest

/-- A resource schema: the per-attribute key paths and the ordered
candidate attribute paths to a resource manager. -/
structure ResourceSchema : Type where
  attr_names : List (String × List String)
  resource_manager_path : List (List String)
deriving Repr, DecidableEq

/-- The `"vm"` entry of `collected_components_attrs`. -/
def vmSchema : ResourceSchema :=
  { attr_names :=
     [ ("id", ["id"]),
       ("status", ["status"]),
       ("tenant_id", ["tenant_id"]),
       ("host_id", ["hostId"]),
       ("created_at", ["created"]),
       ("power_state", ["OS-EXT-STS:power_state"]),
       ("flavor_id", ["flavor", "id"]),
       ("image_id", ["image", "id"]) ],
    resource_manager_path := [["nova", "servers"]] }

/-- The `"flavor"` entry of `collected_components_attrs`. -/
def flavorSchema : ResourceSchema :=
  { attr_names :=
     [ ("id", ["id"]),
       ("ram", ["ram"]),
       ("vcpus", ["vcpus"]),
       ("ephemeral", ["OS-FLV-EXT-DATA:ephemeral"]),
       ("disk", ["disk"]),
       ("swap", ["swap"]) ],
    resource_manager_path := [["nova", "flavors"]] }

/-- The `"tenant"` entry of `collected_components_attrs`. -/
def tenantSchema : ResourceSchema :=
  { attr_names :=
     [ ("id", ["id"]),
       ("enabled_flag", ["enabled"]) ],
    resource_manager_path := [["keystone", "tenants"],
                              ["keystone", "projects"]] }

/-- The `"image"` entry of `collected_components_attrs`. -/
def imageSchema : ResourceSchema :=
  { attr_names :=
     [ ("id", ["id"]),
       ("minDisk", ["minDisk"]),
       ("minRam", ["minRam"]),
       ("sizeBytes", ["OS-EXT-IMG-SIZE:size"]),
       ("created_at", ["created"]),
       ("updated_at", ["updated"]) ],
    resource_manager_path := [["nova", "images"]] }

/-- The `"volume"` entry of `collected_components_attrs`. -/
def volumeSchema : ResourceSchema :=
  { attr_names :=
     [ ("id", ["id"]),
       ("availability_zone", ["availability_zone"]),
       ("encrypted_flag", ["encrypted"]),
       ("bootable_flag", ["bootable"]),
       ("status", ["status"]),
       ("volume_type", ["volume_type"]),
       ("size", ["size"]),
       ("host", ["os-vol-host-attr:host"]),
       ("snapshot_id", ["snapshot_id"]),
       ("attachments", ["attachments"]),
       ("tenant_id", ["os-vol-tenant-attr:tenant_id"]) ],
    resource_manager_path := [["cinder", "volumes"]] }

/-- The registry `collected_components_attrs`, transcribed verbatim. -/
def collected_components_attrs : List (String × ResourceSchema) :=
  [ ("vm", vmSchema),
    ("flavor", flavorSchema),
    ("tenant", tenantSchema),
    ("image", imageSchema),
    ("volume", volumeSchema) ]

/-- `collected_components_attrs[resource_name]`: registry lookup. -/
def lookupRegistry (resource_name : String) : Option ResourceSchema :=
  (collected_components_attrs.find? (fun p => p.1 == resource_name)).map
    (fun p => p.2)

/-- The `for resource_manager_path in ... : if resource_manager: break`
loop: walk each candidate path with `_get_nested_attr` and keep the
first truthy result; `Option.none` models the `for`-`else` fall-through. -/
def resolveManagerLoop (client_provider : PyObj) :
    List (List String) → Option PyObj
  | [] => Option.none
  | p :: rest =>
    let rm := _get_nested_attr client_provider p
    if truthy rm then some rm else resolveManagerLoop client_provider rest

/-- `resource_manager.list()`: managers answer with their instance list
or propagate the upstream failure; anything else lacks the method. -/
def callList : PyObj → Except PyErr (List ObjDict)
  | PyObj.manager (some l) => Except.ok l
  | PyObj.manager Option.none => Except.error PyErr.upstream
  | _ => Except.error PyErr.attributeError

/-- The inner `for attr_name, attr_path in six.iteritems(...)` loop for
one instance: build `inst_details` by walking every declared key path. -/
def extractRecord (attrs : List (String × List String)) (d : ObjDict) :
    Except PyErr ObjDict :=
  attrs.mapM (fun p =>
    (_get_value_from_nested_dict d p.2).map (fun v => (p.1, v)))

/-- `get_info_from_os_resource_manager(client_provider, resource_name)`:
registry lookup, manager resolution with the `for`-`else` raise,
`list()`, then per-instance record extraction in order. -/
def get_info_from_os_resource_manager (client_provider : PyObj)
    (resource_name : String) : Except PyErr (List ObjDict) := do
  let resource ←
    match lookupRegistry resource_name with
    | some r => Except.ok r
    | Option.none => Except.error (PyErr.keyError resource_name)
  let resource_manager ←
    match resolveManagerLoop client_provider resource.resource_manager_path with
    | some rm => Except.ok rm
    | Option.none => Except.error (PyErr.managerUnavailable resource_name)
  let instances_list ← callList resource_manager
  instances_list.mapM (extractRecord resource.attr_names)

/-- `hasattr(o, a)` restricted to named attributes: only `obj` nodes
carry attributes, so absence means the name is not among them. -/
def pyHasAttr : PyObj → String → Bool
  | PyObj.obj attrs, a => (attrs.find? (fun p => p.1 == a)).isSome
  | _, _ => false

/-- Auxiliary predicate for stating C9: following a key path through a
dictionary where every step lands on a nested dictionary, ending at the
dictionary `d'`. -/
def descendDicts : ObjDict → List String → Option ObjDict
  | d, [] => some d
  | d, k :: rest =>
    match dictGet d k with
    | PyVal.dict d' => descendDicts d' rest
    | _ => Option.none

lemma dictGet_of_find_none (d : ObjDict) (k : String)
    (h : d.find? (fun p => p.1 == k) = Option.none) :
    dictGet d k = PyVal.none := by
  simp [dictGet, h]

lemma getattrDefNone_of_not_hasAttr (o : PyObj) (a : String)
    (h : pyHasAttr o a = false) : getattrDefNone o a = PyObj.none := by
  cases o with
  | obj attrs =>
    simp only [pyHasAttr] at h
    cases hf : attrs.find? (fun p => p.1 == a) with
    | none => simp [getattrDefNone, hf]
    | some p => rw [hf] at h; simp at h
  | none => rfl
  | int n => rfl
  | str s => rfl
  | bool b => rfl
  | listv l => rfl
  | manager m => rfl

lemma get_nested_attr_none (p : List String) :
    _get_nested_attr PyObj.none p = PyObj.none := by
  cases p with
  | nil => rfl
  | cons a rest => simp [_get_nested_attr, truthy]

lemma resolveManagerLoop_eq_none (cp : PyObj) (l : List (List String))
    (h : ∀ p ∈ l, truthy (_get_nested_attr cp p) = false) :
    resolveManagerLoop cp l = Option.none := by
  induction l with
  | nil => rfl
  | cons p rest ih =>
    have hp := h p (List.mem_cons_self p rest)
    simp only [resolveManagerLoop, hp, Bool.false_eq_true, if_false]
    exact ih (fun q hq => h q (List.mem_cons_of_mem p hq))

/-- C2: on the mapping `{"flavor": {"id": 42}}` the key-path walk yields
`42` for the path `["flavor", "id"]` and also for the overlong path
`["flavor", "id", "extra"]`; in general, the moment a key yields a
non-mapping value, that value is returned as final even if path
segments remain unconsumed. -/
theorem keypath_walk_depth_exact :
    _get_value_from_nested_dict [("flavor", PyVal.dict [("id", PyVal.int 42)])]
        ["flavor", "id"] = Except.ok (PyVal.int 42) ∧
    _get_value_from_nested_dict [("flavor", PyVal.dict [("id", PyVal.int 42)])]
        ["flavor", "id", "extra"] = Except.ok (PyVal.int 42) ∧
    ∀ (d : ObjDict) (k : String) (rest : List String),
      (∀ d', dictGet d k ≠ PyVal.dict d') →
      _get_value_from_nested_dict d (k :: rest) = Except.ok (dictGet d k) := by
  refine ⟨rfl, rfl, ?_⟩
  intro d k rest h
  cases hv : dictGet d k with
  | dict d' => exact absurd hv (h d')
  | none => simp [_get_value_from_nested_dict, hv]
  | int n => simp [_get_value_from_nested_dict, hv]
  | str s => simp [_get_value_from_nested_dict, hv]
  | bool b => simp [_get_value_from_nested_dict, hv]

/-- C2 witness: the general clause applied at the concrete mapping
`{"flavor": {"id": 42}}` with the non-mapping value at key `"id"`. -/
theorem keypath_walk_depth_exact_witness :
    (∀ d', dictGet [("id", PyVal.int 42)] "id" ≠ PyVal.dict d') ∧
    _get_value_from_nested_dict [("id", PyVal.int 42)] ["id", "extra"] =
      Except.ok (dictGet [("id", PyVal.int 42)] "id") :=
  ⟨fun d' h => by simp [dictGet] at h,
   keypath_walk_depth_exact.2.2 [("id", PyVal.int 42)] "id" ["extra"]
     (fun d' h => by simp [dictGet] at h)⟩

/-- C7: a key absent at any step of a key-path walk yields the
absent-value sentinel `None` (wrapped in `Except.ok`), never an
exception, whatever path segments remain. -/
theorem keypath_walk_absent_key (d : ObjDict) (k : String) (rest : List String)
    (h : d.find? (fun p => p.1 == k) = Option.none) :
    _get_value_from_nested_dict d (k :: rest) = Except.ok PyVal.none := by
  simp only [_get_value_from_nested_dict, dictGet_of_find_none d k h]

/-- C7 witness: the mapping `{"id": "i-1"}` lacks the key `"status"`, and
the walk along path `["status"]` yields the sentinel, not an error. -/
theorem keypath_walk_absent_key_witness :
    ([("id", PyVal.str "i-1")] : ObjDict).find? (fun p => p.1 == "status") =
        Option.none ∧
    _get_value_from_nested_dict [("id", PyVal.str "i-1")] ["status"] =
      Except.ok PyVal.none :=
  ⟨rfl, keypath_walk_absent_key [("id", PyVal.str "i-1")] "status" [] rfl⟩

/-- C9: the key-path walk is not total on short paths: whenever
following the whole key path lands on a value that is itself a mapping
(including the empty path on a mapping), the walk keeps descending,
indexes an empty path, and raises `IndexError` instead of returning the
nested mapping or the sentinel. -/
theorem keypath_walk_short_path_raises (d d' : ObjDict) (p : List String)
    (h : descendDicts d p = some d') :
    _get_value_from_nested_dict d p = Except.error PyErr.indexError := by
  induction p generalizing d with
  | nil => rfl
  | cons k rest ih =>
    simp only [descendDicts] at h
    simp only [_get_value_from_nested_dict]
    cases hv : dictGet d k with
    | dict d2 => rw [hv] at h; exact ih d2 h
    | none => rw [hv] at h; exact absurd h (by simp)
    | int n => rw [hv] at h; exact absurd h (by simp)
    | str s => rw [hv] at h; exact absurd h (by simp)
    | bool b => rw [hv] at h; exact absurd h (by simp)

/-- C9 witness: on `{"flavor": {"id": 42}}` the short path `["flavor"]`
ends on a mapping, so the walk raises `IndexError`. -/
theorem keypath_walk_short_path_raises_witness :
    descendDicts [("flavor", PyVal.dict [("id", PyVal.int 42)])] ["flavor"] =
        some [("id", PyVal.int 42)] ∧
    _get_value_from_nested_dict [("flavor", PyVal.dict [("id", PyVal.int 42)])]
        ["flavor"] = Except.error PyErr.indexError :=
  ⟨rfl, keypath_walk_short_path_raises
    [("flavor", PyVal.dict [("id", PyVal.int 42)])] [("id", PyVal.int 42)]
    ["flavor"] rfl⟩

/-- C8: the attribute-path walk is total and crash-free at its edge
cases: a `None` root yields the sentinel for every path, an empty path
yields the sentinel for every root, and an attribute absent on the
current object yields the sentinel rather than an error. -/
theorem attr_walk_total_edge_cases :
    (∀ p, _get_nested_attr PyObj.none p = PyObj.none) ∧
    (∀ o, _get_nested_attr o [] = PyObj.none) ∧
    (∀ (o : PyObj) (a : String) (rest : List String),
      pyHasAttr o a = false → _get_nested_attr o (a :: rest) = PyObj.none) := by
  refine ⟨get_nested_attr_none, fun o => rfl, ?_⟩
  intro o a rest h
  by_cases ht : truthy o = false
  · simp [_get_nested_attr, ht]
  · simp only [_get_nested_attr, ht, if_false]
    rw [getattrDefNone_of_not_hasAttr o a h]
    cases rest with
    | nil => rfl
    | cons b rest' => exact get_nested_attr_none (b :: rest')

/-- C8 witness: a root lacking the attribute `"nova"` yields the
sentinel on path `["nova", "servers"]`. -/
theorem attr_walk_total_edge_cases_witness :
    pyHasAttr (PyObj.obj [("cinder", PyObj.manager (some []))]) "nova" = false ∧
    _get_nested_attr (PyObj.obj [("cinder", PyObj.manager (some []))])
        ["nova", "servers"] = PyObj.none :=
  ⟨rfl, attr_walk_total_edge_cases.2.2
    (PyObj.obj [("cinder", PyObj.manager (some []))]) "nova" ["servers"] rfl⟩

/-- C10: resolution uses truthiness, not presence: a falsy intermediate
attribute value makes the attribute walk return the sentinel, and a
falsy resolved manager makes the candidate loop move on to the next
candidate path. -/
theorem resolution_truthiness :
    (∀ (o : PyObj) (a b : String) (rest : List String),
      truthy (getattrDefNone o a) = false →
      _get_nested_attr o (a :: b :: rest) = PyObj.none) ∧
    (∀ (cp : PyObj) (A : List String) (rest : List (List String)),
      truthy (_get_nested_attr cp A) = false →
      resolveManagerLoop cp (A :: rest) = resolveManagerLoop cp rest) := by
  constructor
  · intro o a b rest h
    by_cases ht : truthy o = false
    · simp [_get_nested_attr, ht]
    · have ht' : truthy o = true := by revert ht; cases truthy o <;> simp
      simp [_get_nested_attr, ht', h]
  · intro cp A rest h
    simp [resolveManagerLoop, h]

/-- C10 witness: an attribute present with the falsy value `0` is
treated as unresolved by the walk, and a candidate path resolving to
that falsy value is skipped in favour of the next candidate. -/
theorem resolution_truthiness_witness :
    (truthy (getattrDefNone (PyObj.obj [("x", PyObj.int 0)]) "x") = false ∧
     _get_nested_attr (PyObj.obj [("x", PyObj.int 0)]) ["x", "y"] =
       PyObj.none) ∧
    (truthy (_get_nested_attr
        (PyObj.obj [("keystone",
          PyObj.obj [("tenants", PyObj.int 0),
                     ("projects", PyObj.manager (some []))])])
        ["keystone", "tenants"]) = false ∧
     resolveManagerLoop
        (PyObj.obj [("keystone",
          PyObj.obj [("tenants", PyObj.int 0),
                     ("projects", PyObj.manager (some []))])])
        [["keystone", "tenants"], ["keystone", "projects"]] =
       resolveManagerLoop
        (PyObj.obj [("keystone",
          PyObj.obj [("tenants", PyObj.int 0),
                     ("projects", PyObj.manager (some []))])])
        [["keystone", "projects"]]) :=
  ⟨⟨rfl, resolution_truthiness.1 (PyObj.obj [("x", PyObj.int 0)]) "x" "y" [] rfl⟩,
   ⟨rfl, resolution_truthiness.2
      (PyObj.obj [("keystone",
        PyObj.obj [("tenants", PyObj.int 0),
                   ("projects", PyObj.manager (some []))])])
      ["keystone", "tenants"] [["keystone", "projects"]] rfl⟩⟩

/-- C3: manager resolution is first-match-wins: whenever candidate path
`A` resolves to a truthy manager, the loop over `[A, B]` returns `A`'s
manager, whatever `B` is. -/
theorem manager_resolution_first_match (cp : PyObj) (A B : List String)
    (h : truthy (_get_nested_attr cp A) = true) :
    resolveManagerLoop cp [A, B] = some (_get_nested_attr cp A) := by
  simp [resolveManagerLoop, h]

/-- C3 witness: with both a `tenants` and a `projects` manager under the
keystone sub-client, the tenant candidates resolve to the `tenants`
manager. -/
theorem manager_resolution_first_match_witness :
    truthy (_get_nested_attr
      (PyObj.obj [("keystone",
        PyObj.obj [("tenants", PyObj.manager (some [[("id", PyVal.str "t1")]])),
                   ("projects", PyObj.manager (some [[("id", PyVal.str "p1")]]))])])
      ["keystone", "tenants"]) = true ∧
    resolveManagerLoop
      (PyObj.obj [("keystone",
        PyObj.obj [("tenants", PyObj.manager (some [[("id", PyVal.str "t1")]])),
                   ("projects", PyObj.manager (some [[("id", PyVal.str "p1")]]))])])
      [["keystone", "tenants"], ["keystone", "projects"]] =
      some (PyObj.manager (some [[("id", PyVal.str "t1")]])) :=
  ⟨rfl,
   (manager_resolution_first_match
      (PyObj.obj [("keystone",
        PyObj.obj [("tenants", PyObj.manager (some [[("id", PyVal.str "t1")]])),
                   ("projects", PyObj.manager (some [[("id", PyVal.str "p1")]]))])])
      ["keystone", "tenants"] ["keystone", "projects"] rfl).trans rfl⟩

/-- The raw `"vm"` instance of the end-to-end scenario. -/
def vmRawInstance : ObjDict :=
  [ ("id", PyVal.str "i-1"),
    ("status", PyVal.str "ACTIVE"),
    ("hostId", PyVal.str "h1"),
    ("created", PyVal.str "t0"),
    ("OS-EXT-STS:power_state", PyVal.int 1),
    ("flavor", PyVal.dict [("id", PyVal.str "f1")]),
    ("image", PyVal.dict [("id", PyVal.str "im1")]) ]

/-- A client provider whose nova `servers` manager lists exactly
`vmRawInstance`. -/
def novaProvider : PyObj :=
  PyObj.obj [("nova",
    PyObj.obj [("servers", PyObj.manager (some [vmRawInstance]))])]

/-- A client provider whose nova `servers` manager's `list()` fails. -/
def failingNovaProvider : PyObj :=
  PyObj.obj [("nova", PyObj.obj [("servers", PyObj.manager Option.none)])]

/-- C1: extraction for the kind `"vm"` over the single raw instance
`{"id": "i-1", "status": "ACTIVE", "hostId": "h1", "created": "t0",
"OS-EXT-STS:power_state": 1, "flavor": {"id": "f1"},
"image": {"id": "im1"}}` yields exactly one record mapping `id` to
`"i-1"`, `status` to `"ACTIVE"`, `tenant_id` to the absent-value
sentinel `None`, `host_id` to `"h1"`, `created_at` to `"t0"`,
`power_state` to `1`, `flavor_id` to `"f1"` and `image_id` to
`"im1"`. -/
theorem vm_end_to_end_extraction :
    get_info_from_os_resource_manager novaProvider "vm" =
      Except.ok
        [[ ("id", PyVal.str "i-1"),
           ("status", PyVal.str "ACTIVE"),
           ("tenant_id", PyVal.none),
           ("host_id", PyVal.str "h1"),
           ("created_at", PyVal.str "t0"),
           ("power_state", PyVal.int 1),
           ("flavor_id", PyVal.str "f1"),
           ("image_id", PyVal.str "im1") ]] := rfl

/-- C4: for a known resource kind whose candidate manager paths all fail
to resolve on the client holder, extraction fails with the
manager-unavailable error naming the resource kind; the outcome carries
no trace of any `list()` call. -/
theorem extraction_manager_unavailable (cp : PyObj) (name : String)
    (schema : ResourceSchema) (h1 : lookupRegistry name = some schema)
    (h2 : ∀ p ∈ schema.resource_manager_path,
      truthy (_get_nested_attr cp p) = false) :
    get_info_from_os_resource_manager cp name =
      Except.error (PyErr.managerUnavailable name) := by
  have hr := resolveManagerLoop_eq_none cp schema.resource_manager_path h2
  simp [get_info_from_os_resource_manager, h1, hr, Bind.bind, Except.bind]

/-- C4 witness: a client holder missing every sub-client (`None`) makes
`"vm"` extraction fail with the manager-unavailable error. -/
theorem extraction_manager_unavailable_witness :
    lookupRegistry "vm" = some vmSchema ∧
    (∀ p ∈ vmSchema.resource_manager_path,
      truthy (_get_nested_attr PyObj.none p) = false) ∧
    get_info_from_os_resource_manager PyObj.none "vm" =
      Except.error (PyErr.managerUnavailable "vm") :=
  ⟨rfl, by decide,
   extraction_manager_unavailable PyObj.none "vm" vmSchema rfl (by decide)⟩

/-- C5: schema lookup over the fixed enumeration: a name outside
`{vm, flavor, tenant, image, volume}` makes lookup fail and extraction
end in the key-error; a name inside it is mapped to its registry
schema. -/
theorem registry_lookup_fixed_enumeration (name : String) (cp : PyObj) :
    (name ∉ ["vm", "flavor", "tenant", "image", "volume"] →
      lookupRegistry name = Option.none ∧
      get_info_from_os_resource_manager cp name =
        Except.error (PyErr.keyError name)) ∧
    (name ∈ ["vm", "flavor", "tenant", "image", "volume"] →
      ∃ s, (name, s) ∈ collected_components_attrs ∧
        lookupRegistry name = some s) := by
  constructor
  · intro h
    have h1 : ¬name = "vm" := fun e => h (by simp [e])
    have h2 : ¬name = "flavor" := fun e => h (by simp [e])
    have h3 : ¬name = "tenant" := fun e => h (by simp [e])
    have h4 : ¬name = "image" := fun e => h (by simp [e])
    have h5 : ¬name = "volume" := fun e => h (by simp [e])
    have e1 : (("vm" : String) == name) = false :=
      beq_eq_false_iff_ne.mpr (fun e => h1 e.symm)
    have e2 : (("flavor" : String) == name) = false :=
      beq_eq_false_iff_ne.mpr (fun e => h2 e.symm)
    have e3 : (("tenant" : String) == name) = false :=
      beq_eq_false_iff_ne.mpr (fun e => h3 e.symm)
    have e4 : (("image" : String) == name) = false :=
      beq_eq_false_iff_ne.mpr (fun e => h4 e.symm)
    have e5 : (("volume" : String) == name) = false :=
      beq_eq_false_iff_ne.mpr (fun e => h5 e.symm)
    have hl : lookupRegistry name = Option.none := by
      simp [lookupRegistry, collected_components_attrs, List.find?,
        e1, e2, e3, e4, e5]
    exact ⟨hl, by simp [get_info_from_os_resource_manager, hl, Bind.bind,
      Except.bind]⟩
  · intro h
    simp only [List.mem_cons, List.not_mem_nil, or_false] at h
    rcases h with h | h | h | h | h <;> subst h
    · exact ⟨vmSchema, by simp [collected_components_attrs], rfl⟩
    · exact ⟨flavorSchema, by simp [collected_components_attrs], rfl⟩
    · exact ⟨tenantSchema, by simp [collected_components_attrs], rfl⟩
    · exact ⟨imageSchema, by simp [collected_components_attrs], rfl⟩
    · exact ⟨volumeSchema, by simp [collected_components_attrs], rfl⟩

/-- C5 witness: the unknown kind `"network"` is outside the enumeration
and its extraction fails with the key-error naming it. -/
theorem registry_lookup_fixed_enumeration_witness :
    (("network" : String) ∉ ["vm", "flavor", "tenant", "image", "volume"]) ∧
    get_info_from_os_resource_manager PyObj.none "network" =
      Except.error (PyErr.keyError "network") :=
  ⟨by decide,
   ((registry_lookup_fixed_enumeration "network" PyObj.none).1 (by decide)).2⟩

/-- C6: when the resolved manager's `list()` fails, extraction
propagates the upstream failure and produces zero records: the result
is the upstream error, never a partial record list. -/
theorem extraction_upstream_failure (cp : PyObj) (name : String)
    (schema : ResourceSchema) (h1 : lookupRegistry name = some schema)
    (h2 : resolveManagerLoop cp schema.resource_manager_path =
      some (PyObj.manager Option.none)) :
    get_info_from_os_resource_manager cp name = Except.error PyErr.upstream := by
  simp [get_info_from_os_resource_manager, h1, h2, callList, Bind.bind,
    Except.bind]

/-- C6 witness: a nova provider whose `servers` manager's `list()` fails
makes `"vm"` extraction end in the upstream error with no records. -/
theorem extraction_upstream_failure_witness :
    resolveManagerLoop failingNovaProvider vmSchema.resource_manager_path =
      some (PyObj.manager Option.none) ∧
    get_info_from_os_resource_manager failingNovaProvider "vm" =
      Except.error PyErr.upstream :=
  ⟨rfl, extraction_upstream_failure failingNovaProvider "vm" vmSchema rfl rfl⟩

end FuelStats
